import Mathlib

/-
Shallow embedding of the Three Beans cafe backend (Express + Mongoose).
Document identifiers are modelled as strings; the document store is a list
of documents; each route handler becomes a pure function from the store and
the request data to a response (and, for writes, the successor store).
-/

set_option autoImplicit false

namespace ThreeBeans

/-- A `User` document, after the shape used by `UserRouter.js` and described
in the data model: unique email, hashed password, display name, optional
birthday, boolean admin flag, system-assigned identifier. -/
structure User where
  id : String
  email : String
  password : String
  name : String
  birthday : Option String
  admin : Bool
  deriving Repr, DecidableEq

/-- A `Category` document from `ItemModel.js`: a required unique name plus
the system-assigned identifier. -/
structure Category where
  id : String
  name : String
  deriving Repr, DecidableEq

/-- An `Item` document from `ItemModel.js`: required unique name, required
reference to a category (by identifier), required price, required quantity,
optional description and image, system-assigned identifier. Prices carry no
fractional arithmetic anywhere in the code, so they are embedded as `Int`. -/
structure Item where
  id : String
  name : String
  category : String
  price : Int
  quantity : Option Int
  description : Option String
  image : Option String
  deriving Repr, DecidableEq

/-- Response of the menu routes that return a list of items:
either an error status with a message, or a 200 with the result list. -/
inductive ItemsResp where
  | err (status : Nat) (message : String)
  | ok (status : Nat) (result : List Item)
  deriving Repr, DecidableEq

/-- Response of `GET /menu/:id`: an error status with a message, or a 200
with the single item. -/
inductive ItemResp where
  | err (status : Nat) (message : String)
  | ok (status : Nat) (result : Item)
  deriving Repr, DecidableEq

/-- `router.get("/categories/:categoryId")` in `MenuRouter.js`: find every
item whose `category` field equals the requested id; if the list is empty
respond 404 with the fixed message, otherwise respond with the list. The
handler never consults the category collection. -/
def getItemsByCategory (items : List Item) (categoryId : String) : ItemsResp :=
  let found := items.filter (fun i => i.category == categoryId)
  if found.length == 0 then
    .err 404 "There are currently no items in this category."
  else
    .ok 200 found

/-- `router.get("/:id")` in `MenuRouter.js`: `findById`, 404 with message
"Item not found" (as written in the source, with no trailing period) when
no item matches, otherwise the item. -/
def getItemById (items : List Item) (itemId : String) : ItemResp :=
  match items.find? (fun i => i.id == itemId) with
  | none => .err 404 "Item not found"
  | some item => .ok 200 item

/-- `router.get("/")` in `MenuRouter.js`: respond with every item. -/
def getAllItems (items : List Item) : ItemsResp :=
  .ok 200 items

/-! ## Auth middleware -/

/-- Outcome of a middleware step: reject the request with a status and a
message, or attach the authenticated user id and continue to the handler. -/
inductive AuthOutcome where
  | reject (status : Nat) (message : String)
  | proceed (userId : String)
  deriving Repr, DecidableEq

/-- Modelled from the spec: the token middleware in `src/utils/middleware.js`
(`verifyJwt`) is not among the provided sources. Per the spec state machine,
a request with no token header is rejected 401
"Authentication token is required"; with a header, the token is verified,
rejecting 401 "Invalid token" on failure and attaching the embedded user
identifier on success. Verification itself is an external primitive, passed
in as `verify`. -/
def verifyJwt (verify : String → Option String) (header : Option String) :
    AuthOutcome :=
  match header with
  | none => .reject 401 "Authentication token is required"
  | some token =>
    match verify token with
    | none => .reject 401 "Invalid token"
    | some userId => .proceed userId

/-- Modelled from the spec: the admin guard in `src/utils/middleware.js` is
not among the provided sources. Per the spec, it runs after identity
attachment, re-fetches the user record from the store, and rejects 403
"Access denied! must be an admin." unless the admin flag on the record is true. -/
def requireAdmin (users : List User) (userId : String) : AuthOutcome :=
  match users.find? (fun u => u.id == userId) with
  | none => .reject 403 "Access denied! must be an admin."
  | some u =>
    if u.admin then .proceed userId
    else .reject 403 "Access denied! must be an admin."

/-- The full admin gate on an admin-only route: `verifyJwt` followed by the
admin check, as the routes chain the two middlewares. -/
def adminGate (verify : String → Option String) (users : List User)
    (header : Option String) : AuthOutcome :=
  match verifyJwt verify header with
  | .reject s m => .reject s m
  | .proceed userId => requireAdmin users userId

/-! ## Menu admin routes -/

/-- Response of a write route that reports only a status and a message. -/
structure MsgResp where
  status : Nat
  message : String
  deriving Repr, DecidableEq

/-- Modelled from the spec: the `DELETE /menu/delete/category/:id` handler is
not among the provided sources (only its tests are). Per the spec,
`deleteCategory(id)` fails NotFound if no category has the id, fails 400
"Cannot delete this category as there are still items associated with it."
if any item references it (leaving the store unchanged), and otherwise
removes the category and reports its name. The messages follow the
repository tests. -/
def deleteCategory (cats : List Category) (items : List Item)
    (catId : String) : MsgResp × List Category × List Item :=
  match cats.find? (fun c => c.id == catId) with
  | none => (⟨404, "Category not found."⟩, cats, items)
  | some cat =>
    if items.any (fun i => i.category == catId) then
      (⟨400,
        "Cannot delete this category as there are still items associated with it."⟩,
        cats, items)
    else
      (⟨200, "Category " ++ cat.name ++ " deleted successfully."⟩,
        cats.filter (fun c => c.id != catId), items)

/-! ## User routes -/

/-- Response of `POST /users/signup`: a 400 with a message when the email is
taken, or a 201 carrying the message, the new user document, the issued
token and the decoded token, exactly the fields the handler sends. -/
inductive SignupResp where
  | dup (status : Nat) (message : String)
  | created (status : Nat) (message : String) (newUser : User) (token : String)
      (decoded : String)
  deriving Repr, DecidableEq

/-- `router.post("/signup")` in `UserRouter.js`: check `findOne({email})`
and answer 400 "A profile with this email already exists." if a user holds
the email; otherwise build the new user, save it, issue a token on the new
id and decode it, and answer 201. The stored password is the hash of the
submitted one — modelled from the spec ("hashes password, persists"), since
the hashing lives in the `UserModel` pre-save hook whose file is not among
the provided sources. `hash`, `issueTok` and `decodeTok` stand for the
bcrypt and jwt primitives; `newId` is the store-assigned identifier. -/
def signup (hash : String → String) (issueTok : String → String)
    (decodeTok : String → String) (users : List User)
    (email password name : String) (birthday : Option String)
    (newId : String) : SignupResp × List User :=
  match users.find? (fun u => u.email == email) with
  | some _ => (.dup 400 "A profile with this email already exists.", users)
  | none =>
    let newUser : User :=
      { id := newId, email := email, password := hash password, name := name,
        birthday := birthday, admin := false }
    let token := issueTok newId
    (.created 201 ("Thank you for signing up to Three Beans " ++ name ++ "!")
      newUser token (decodeTok token), users ++ [newUser])

/-- The partial patch body of `PATCH /users/update`: each field is absent
(`none`) or present with a string value, which JavaScript treats as falsy
exactly when it is empty. -/
structure Patch where
  name : Option String
  email : Option String
  password : Option String
  birthday : Option String
  deriving Repr, DecidableEq

/-- JavaScript truthiness of an optional string field: present and
non-empty. -/
def truthy : Option String → Bool
  | some s => s != ""
  | none => false

/-- `if (field) user.field = field` from the update handler: apply the patch
value only when it is truthy, otherwise keep the current value. -/
def applyTruthy (cur : String) (field : Option String) : String :=
  match field with
  | some s => if s == "" then cur else s
  | none => cur

/-- Response of `PATCH /users/update`: an error status with a message, or a
200 with the confirmation message and a freshly issued token. -/
inductive UpdateResp where
  | err (status : Nat) (message : String)
  | ok (status : Nat) (message : String) (token : String)
  deriving Repr, DecidableEq

/-- The HTTP status of an update response. -/
def UpdateResp.status : UpdateResp → Nat
  | .err s _ => s
  | .ok s _ _ => s

/-- The email check inside the update handler: when the patch carries a
truthy email, `findOne({email})` against the store; a conflict exactly when
the holder found is a different user than the requester. -/
def emailConflict (users : List User) (userId : String) (p : Patch) : Bool :=
  match p.email with
  | some e =>
    if e == "" then false
    else
      match users.find? (fun (u : User) => u.email == e) with
      | some existing => existing.id != userId
      | none => false
  | none => false

/-- The in-memory mutations of the update handler applied to the fetched
document: every truthy patch field overwrites the stored one, the password
through the bcrypt hash; falsy or absent fields leave the document alone. -/
def updatedUser (hash : String → String) (user : User) (p : Patch) : User :=
  { user with
    name := applyTruthy user.name p.name,
    email := applyTruthy user.email p.email,
    password :=
      match p.password with
      | some pw => if pw == "" then user.password else hash pw
      | none => user.password,
    birthday :=
      match p.birthday with
      | some b => if b == "" then user.birthday else some b
      | none => user.birthday }

/-- `router.patch("/update")` in `UserRouter.js`: fetch the requester by the
user id carried by the token (404 "User not found." if absent); when the patch carries a
truthy email, `findOne({email})` and answer 400 "This email is already in
use." if the holder is a different user — this early return skips the save,
so the store is unchanged; otherwise apply every truthy patch field (the
password re-hashed), save the document, and answer 200 with a new token. -/
def updateProfile (hash : String → String) (issueTok : User → String)
    (users : List User) (userId : String) (p : Patch) :
    UpdateResp × List User :=
  match users.find? (fun u => u.id == userId) with
  | none => (.err 404 "User not found.", users)
  | some user =>
    if emailConflict users userId p then
      (.err 400 "This email is already in use.", users)
    else
      let user' := updatedUser hash user p
      (.ok 200 "Profile updated successfully!" (issueTok user'),
        users.map (fun (u : User) => if u.id == userId then user' else u))

/-- Response of `GET /users`: the handler always answers 200 with the fixed
message and the complete list of user documents. -/
structure UsersResp where
  status : Nat
  message : String
  result : List User
  deriving Repr, DecidableEq

/-- `router.get("/")` in `UserRouter.js`: `UserModel.find({})` and respond
with `{message: "User router operation", result}`. The find is modelled as
returning the stored documents whole — the User record of the spec carries the
hashed password and specifies no field hiding (the `UserModel` schema file
is not among the provided sources). -/
def getAllUsers (users : List User) : UsersResp :=
  ⟨200, "User router operation", users⟩

/-! ## Server-level fallback and error responder -/

/-- The HTTP methods the application serves (`server.js` enables
GET, POST, PATCH, DELETE). -/
inductive Method where
  | get
  | post
  | patch
  | delete
  deriving Repr, DecidableEq

/-- A plain status/JSON-message response body. -/
structure JsonResp where
  status : Nat
  message : String
  deriving Repr, DecidableEq

/-- `app.get("*")` in `server.js`: the unmatched-route fallback is
registered for the GET verb only, answering 404
`{message: "404 Page not found"}`. A request with any other method whose
path matches no route falls past it to the framework default (`none`). -/
def fallbackResponse (m : Method) : Option JsonResp :=
  if m = Method.get then some ⟨404, "404 Page not found"⟩ else none

/-- An error object reaching the process-wide error middleware: an optional
numeric `status` field and a message. -/
structure ErrObj where
  status : Option Nat
  message : String
  deriving Repr, DecidableEq

/-- Body of the error responder: the envelope message and the underlying
message text of the error. -/
structure ErrResp where
  status : Nat
  message : String
  error : String
  deriving Repr, DecidableEq

/-- The error middleware in `server.js`: responds with
`error.status || 500` (so an absent — or zero, hence falsy — status becomes
500) and the body `{message: "Error Occured!", error: error.message}`. -/
def errorResponder (e : ErrObj) : ErrResp :=
  { status :=
      match e.status with
      | some s => if s == 0 then 500 else s
      | none => 500,
    message := "Error Occured!",
    error := e.message }

/-! ## Item schema validation -/

/-- A candidate item document as handed to Mongoose for persistence: every
field optional before validation. -/
structure ItemDoc where
  name : Option String
  category : Option String
  price : Option Int
  quantity : Option Int
  description : Option String
  image : Option String
  deriving Repr, DecidableEq

/-- Per-document validation of `itemSchema` in `ItemModel.js`: `name`,
`category`, `price` and `quantity` are `required: true`; `description` and
`image` are optional; the schema declares no `min` (or any other) bound on
`price`. Uniqueness of `name` is an index-level constraint, not part of
per-document validation. -/
def itemSchemaValidate (d : ItemDoc) : Bool :=
  d.name.isSome && d.category.isSome && d.price.isSome && d.quantity.isSome

/-! ## Theorems -/

/-- C3: the list-items-by-category route answers 404 with message
"There are currently no items in this category." exactly when zero items
reference the requested category id — the handler never consults the
category collection, so a category id that exists nowhere behaves the same
as an existing category with no items — and otherwise answers 200 with
precisely the items whose category reference equals the id. -/
theorem C3_getItemsByCategory_spec (items : List Item) (categoryId : String) :
    (getItemsByCategory items categoryId =
        .err 404 "There are currently no items in this category." ↔
      items.filter (fun i => i.category == categoryId) = []) ∧
    (items.filter (fun i => i.category == categoryId) ≠ [] →
      getItemsByCategory items categoryId =
        .ok 200 (items.filter (fun i => i.category == categoryId))) := by
  unfold getItemsByCategory
  by_cases h : items.filter (fun i => i.category == categoryId) = []
  · simp [h]
  · have hlen : (items.filter (fun i => i.category == categoryId)).length ≠ 0 := by
      simpa [List.length_eq_zero] using h
    simp [h, hlen]

/-- C3 witness: a store with one item in category c1 answers 404 for c2 and
200 with that item for c1. -/
theorem C3_getItemsByCategory_spec_witness :
    getItemsByCategory [⟨"i1", "Latte", "c1", 5, none, none, none⟩] "c2" =
      .err 404 "There are currently no items in this category." ∧
    getItemsByCategory [⟨"i1", "Latte", "c1", 5, none, none, none⟩] "c1" =
      .ok 200 [⟨"i1", "Latte", "c1", 5, none, none, none⟩] := by
  refine ⟨(C3_getItemsByCategory_spec _ "c2").1.mpr (by decide), ?_⟩
  exact ((C3_getItemsByCategory_spec
    [⟨"i1", "Latte", "c1", 5, none, none, none⟩] "c1").2 (by decide)).trans
    (by decide)

/-- C6: at an id matching no item, the handler in `MenuRouter.js` answers
404 with message "Item not found" — without the trailing period that the
spec, and the repository tests, require as "Item not found.". -/
theorem C6_getItemById_message_divergence :
    getItemById [] "000000000000000000000000" = .err 404 "Item not found" ∧
    "Item not found" ≠ "Item not found." :=
  ⟨rfl, by decide⟩

/-- C7 counterexample: the claim fails at two concrete inputs. The
unmatched-route fallback in `server.js` is registered with `app.get`, so a
POST request to an unmatched path does not receive the 404 JSON body the
claim promises for every HTTP method; and an error whose status field is
present but zero receives 500 from `error.status || 500`, not the present
status the claim promises. -/
theorem C7_fallback_counterexample :
    fallbackResponse Method.post ≠ some ⟨404, "404 Page not found"⟩ ∧
    (errorResponder ⟨some 0, "boom"⟩).status = 500 ∧
    (errorResponder ⟨some 0, "boom"⟩).status ≠ 0 := by
  decide

/-- C7 amended: a GET request to an unmatched path receives status 404 with
body message "404 Page not found"; requests with any other method fall past
the fallback to the framework default; and every error forwarded to the
process-wide responder receives status error.status when present and
non-zero, otherwise 500 — also when the status is present but zero — with
body message "Error Occured!" and the error field carrying the message
text of the underlying error. -/
theorem C7_fallback_and_error_responder (e : ErrObj) :
    fallbackResponse Method.get = some ⟨404, "404 Page not found"⟩ ∧
    (∀ m : Method, m ≠ Method.get → fallbackResponse m = none) ∧
    (∀ s : Nat, e.status = some s → s ≠ 0 → (errorResponder e).status = s) ∧
    (e.status = some 0 → (errorResponder e).status = 500) ∧
    (e.status = none → (errorResponder e).status = 500) ∧
    (errorResponder e).message = "Error Occured!" ∧
    (errorResponder e).error = e.message := by
  refine ⟨rfl, ?_, ?_, ?_, ?_, rfl, rfl⟩
  · intro m hm
    cases m
    · exact absurd rfl hm
    · rfl
    · rfl
    · rfl
  · intro s hs hsnz
    simp [errorResponder, hs, hsnz]
  · intro h0
    simp [errorResponder, h0]
  · intro hn
    simp [errorResponder, hn]

/-- C7 witness: a present non-zero error status is kept, a present zero
status becomes 500, and a POST to an unmatched path is not handled by the
fallback. -/
theorem C7_fallback_and_error_responder_witness :
    (errorResponder ⟨some 418, "boom"⟩).status = 418 ∧
    (errorResponder ⟨some 0, "zero"⟩).status = 500 ∧
    fallbackResponse Method.post = none :=
  ⟨(C7_fallback_and_error_responder ⟨some 418, "boom"⟩).2.2.1 418 rfl
      (by decide),
    (C7_fallback_and_error_responder ⟨some 0, "zero"⟩).2.2.2.1 rfl,
    (C7_fallback_and_error_responder ⟨some 418, "boom"⟩).2.1 Method.post
      (by decide)⟩

/-- C8: `itemSchema` in `ItemModel.js` declares no lower bound on `price`,
so a document with a negative price passes validation, and it declares
`quantity` as `required: true`, so a document without a quantity — as the
repository test fixtures save — fails validation. Both halves contradict
the claim. -/
theorem C8_itemSchema_divergence :
    itemSchemaValidate
      ⟨some "Test Item", some "c1", some (-1), some 1, none, none⟩ = true ∧
    itemSchemaValidate
      ⟨some "Test Item", some "c1", some 5, none, none, none⟩ = false := by
  decide

/-- C1: on any route behind the admin gate, a request without a token is
rejected 401 "Authentication token is required"; a request whose token
fails verification is rejected 401 "Invalid token"; and a request whose
verified user record carries a false admin flag is rejected 403
"Access denied! must be an admin.". -/
theorem C1_adminGate_spec (verify : String → Option String)
    (users : List User) :
    adminGate verify users none =
      .reject 401 "Authentication token is required" ∧
    (∀ t, verify t = none →
      adminGate verify users (some t) = .reject 401 "Invalid token") ∧
    (∀ t uid u, verify t = some uid →
      users.find? (fun x => x.id == uid) = some u → u.admin = false →
      adminGate verify users (some t) =
        .reject 403 "Access denied! must be an admin.") := by
  refine ⟨rfl, ?_, ?_⟩
  · intro t ht
    simp [adminGate, verifyJwt, ht]
  · intro t uid u ht hu hadm
    simp [adminGate, verifyJwt, requireAdmin, ht, hu, hadm]

/-- C1 witness: with a store holding one non-admin user and a verifier
accepting only the token "tok" for that user, the gate answers 401, 401 and
403 with the three fixed messages. -/
theorem C1_adminGate_spec_witness :
    adminGate (fun t => if t == "tok" then some "u1" else none)
      [⟨"u1", "user@test.com", "pw", "Test User", none, false⟩] none =
      .reject 401 "Authentication token is required" ∧
    adminGate (fun t => if t == "tok" then some "u1" else none)
      [⟨"u1", "user@test.com", "pw", "Test User", none, false⟩] (some "bad") =
      .reject 401 "Invalid token" ∧
    adminGate (fun t => if t == "tok" then some "u1" else none)
      [⟨"u1", "user@test.com", "pw", "Test User", none, false⟩] (some "tok") =
      .reject 403 "Access denied! must be an admin." :=
  ⟨(C1_adminGate_spec (fun t => if t == "tok" then some "u1" else none)
      [⟨"u1", "user@test.com", "pw", "Test User", none, false⟩]).1,
    (C1_adminGate_spec (fun t => if t == "tok" then some "u1" else none)
      [⟨"u1", "user@test.com", "pw", "Test User", none, false⟩]).2.1
      "bad" (by decide),
    (C1_adminGate_spec (fun t => if t == "tok" then some "u1" else none)
      [⟨"u1", "user@test.com", "pw", "Test User", none, false⟩]).2.2
      "tok" "u1" ⟨"u1", "user@test.com", "pw", "Test User", none, false⟩
      (by decide) (by decide) rfl⟩

/-- C2: for an admin-authenticated category delete, an id matching no
category answers 404 and leaves the store alone; a matched category that
some item still references answers 400 with the fixed message and leaves
both collections unchanged; a matched category no item references is
removed from the category collection, the items are untouched, and the
answer is 200 with the message naming the deleted category. -/
theorem C2_deleteCategory_spec (cats : List Category) (items : List Item)
    (catId : String) :
    (cats.find? (fun c => c.id == catId) = none →
      (deleteCategory cats items catId).1.status = 404 ∧
      (deleteCategory cats items catId).2 = (cats, items)) ∧
    (∀ cat, cats.find? (fun c => c.id == catId) = some cat →
      (∃ i ∈ items, i.category = catId) →
      deleteCategory cats items catId =
        (⟨400,
          "Cannot delete this category as there are still items associated with it."⟩,
          cats, items)) ∧
    (∀ cat, cats.find? (fun c => c.id == catId) = some cat →
      (∀ i ∈ items, i.category ≠ catId) →
      deleteCategory cats items catId =
        (⟨200, "Category " ++ cat.name ++ " deleted successfully."⟩,
          cats.filter (fun c => c.id != catId), items)) := by
  refine ⟨?_, ?_, ?_⟩
  · intro h
    simp [deleteCategory, h]
  · intro cat hc hex
    obtain ⟨i, hi, hic⟩ := hex
    have hany : items.any (fun i => i.category == catId) = true := by
      rw [List.any_eq_true]
      exact ⟨i, hi, by simpa using hic⟩
    simp [deleteCategory, hc, hany]
  · intro cat hc hno
    have hany : items.any (fun i => i.category == catId) = false := by
      rw [List.any_eq_false]
      intro i hi
      simpa using hno i hi
    simp [deleteCategory, hc, hany]

/-- C2 witness: with categories c1, c2 and one item referencing c1,
deleting c1 answers 400 and changes nothing, deleting c2 answers 200 naming
"Test Category 2" and removes it, and an unknown id answers 404. -/
theorem C2_deleteCategory_spec_witness :
    deleteCategory [⟨"c1", "Test Category"⟩, ⟨"c2", "Test Category 2"⟩]
      [⟨"i1", "Test Item", "c1", 599, none, none, none⟩] "c1" =
      (⟨400,
        "Cannot delete this category as there are still items associated with it."⟩,
        [⟨"c1", "Test Category"⟩, ⟨"c2", "Test Category 2"⟩],
        [⟨"i1", "Test Item", "c1", 599, none, none, none⟩]) ∧
    deleteCategory [⟨"c1", "Test Category"⟩, ⟨"c2", "Test Category 2"⟩]
      [⟨"i1", "Test Item", "c1", 599, none, none, none⟩] "c2" =
      (⟨200, "Category Test Category 2 deleted successfully."⟩,
        [⟨"c1", "Test Category"⟩],
        [⟨"i1", "Test Item", "c1", 599, none, none, none⟩]) ∧
    (deleteCategory [⟨"c1", "Test Category"⟩, ⟨"c2", "Test Category 2"⟩]
      [⟨"i1", "Test Item", "c1", 599, none, none, none⟩] "c9").1.status =
      404 :=
  ⟨(C2_deleteCategory_spec _ _ "c1").2.1 ⟨"c1", "Test Category"⟩ (by decide)
      ⟨⟨"i1", "Test Item", "c1", 599, none, none, none⟩, by decide, rfl⟩,
    ((C2_deleteCategory_spec
      [⟨"c1", "Test Category"⟩, ⟨"c2", "Test Category 2"⟩]
      [⟨"i1", "Test Item", "c1", 599, none, none, none⟩] "c2").2.2
      ⟨"c2", "Test Category 2"⟩ (by decide) (by decide)).trans (by decide),
    ((C2_deleteCategory_spec
      [⟨"c1", "Test Category"⟩, ⟨"c2", "Test Category 2"⟩]
      [⟨"i1", "Test Item", "c1", 599, none, none, none⟩] "c9").1
      (by decide)).1⟩

/-- C4: signup with an email some stored user already holds answers 400
"A profile with this email already exists." and leaves the store unchanged;
with a fresh email, a new user is appended whose stored password is the
hash of the submitted one — hence not the plaintext whenever the hash moves
the string — a token is issued on the new id, and the answer is 201
carrying the message, the new user, the token and the decoded token. -/
theorem C4_signup_spec (hash issueTok decodeTok : String → String)
    (users : List User) (email password name : String)
    (birthday : Option String) (newId : String) :
    ((∃ u ∈ users, u.email = email) →
      signup hash issueTok decodeTok users email password name birthday
        newId =
        (.dup 400 "A profile with this email already exists.", users)) ∧
    ((∀ u ∈ users, u.email ≠ email) → hash password ≠ password →
      signup hash issueTok decodeTok users email password name birthday
        newId =
        (.created 201
          ("Thank you for signing up to Three Beans " ++ name ++ "!")
          ⟨newId, email, hash password, name, birthday, false⟩
          (issueTok newId) (decodeTok (issueTok newId)),
          users ++ [⟨newId, email, hash password, name, birthday, false⟩]) ∧
      hash password ≠ password) := by
  constructor
  · intro hex
    obtain ⟨u, hu, he⟩ := hex
    have hs : (users.find? (fun v => v.email == email)).isSome := by
      rw [List.find?_isSome]
      exact ⟨u, hu, by simpa using he⟩
    obtain ⟨w, hw⟩ := Option.isSome_iff_exists.mp hs
    simp [signup, hw]
  · intro hall hne
    have hn : users.find? (fun v => v.email == email) = none := by
      rw [List.find?_eq_none]
      intro v hv
      simpa using hall v hv
    exact ⟨by simp [signup, hn], hne⟩

/-- C4 witness: against a store holding Alice at a@b.c, signing up again
with a@b.c answers the 400 duplicate message and keeps the store; signing
up Bob at a fresh email appends exactly the hashed-password record and
answers 201 with message, user, token and decoded token. -/
theorem C4_signup_spec_witness :
    signup (fun s => "#" ++ s) (fun i => "tok-" ++ i) (fun t => "dec-" ++ t)
      [⟨"u1", "a@b.c", "#pw", "Alice", none, false⟩]
      "a@b.c" "pw2" "Bob" none "u2" =
      (.dup 400 "A profile with this email already exists.",
        [⟨"u1", "a@b.c", "#pw", "Alice", none, false⟩]) ∧
    signup (fun s => "#" ++ s) (fun i => "tok-" ++ i) (fun t => "dec-" ++ t)
      [⟨"u1", "a@b.c", "#pw", "Alice", none, false⟩]
      "new@b.c" "pw" "Bob" none "u2" =
      (.created 201 "Thank you for signing up to Three Beans Bob!"
        ⟨"u2", "new@b.c", "#pw", "Bob", none, false⟩ "tok-u2" "dec-tok-u2",
        [⟨"u1", "a@b.c", "#pw", "Alice", none, false⟩,
          ⟨"u2", "new@b.c", "#pw", "Bob", none, false⟩]) :=
  ⟨(C4_signup_spec (fun s => "#" ++ s) (fun i => "tok-" ++ i)
      (fun t => "dec-" ++ t)
      [⟨"u1", "a@b.c", "#pw", "Alice", none, false⟩]
      "a@b.c" "pw2" "Bob" none "u2").1
      ⟨⟨"u1", "a@b.c", "#pw", "Alice", none, false⟩, by decide, rfl⟩,
    (((C4_signup_spec (fun s => "#" ++ s) (fun i => "tok-" ++ i)
      (fun t => "dec-" ++ t)
      [⟨"u1", "a@b.c", "#pw", "Alice", none, false⟩]
      "new@b.c" "pw" "Bob" none "u2").2 (by decide) (by decide)).1).trans
      (by decide)⟩

/-- C9: `GET /users` answers 200 with message "User router operation" and
the stored user documents whole; in particular, after a signup the route
surfaces the hashed stored password of the new user in the returned
records. -/
theorem C9_getAllUsers_spec (hash issueTok decodeTok : String → String)
    (users : List User) (email password name : String)
    (birthday : Option String) (newId : String)
    (hfresh : ∀ u ∈ users, u.email ≠ email) :
    getAllUsers users = ⟨200, "User router operation", users⟩ ∧
    (getAllUsers (signup hash issueTok decodeTok users email password name
        birthday newId).2).result.map User.password =
      users.map User.password ++ [hash password] := by
  refine ⟨rfl, ?_⟩
  have hn : users.find? (fun v => v.email == email) = none := by
    rw [List.find?_eq_none]
    intro v hv
    simpa using hfresh v hv
  simp [signup, hn, getAllUsers]

/-- C9 witness: after Bob signs up against a store holding Alice, the users
route exposes both stored hashed passwords. -/
theorem C9_getAllUsers_spec_witness :
    (getAllUsers (signup (fun s => "#" ++ s) (fun i => "t" ++ i)
      (fun t => "d" ++ t) [⟨"u1", "a@b.c", "#pw", "Alice", none, false⟩]
      "b@b.c" "pw2" "Bob" none "u2").2).result.map User.password =
      ["#pw", "#pw2"] :=
  ((C9_getAllUsers_spec (fun s => "#" ++ s) (fun i => "t" ++ i)
    (fun t => "d" ++ t) [⟨"u1", "a@b.c", "#pw", "Alice", none, false⟩]
    "b@b.c" "pw2" "Bob" none "u2" (by decide)).2).trans (by decide)

/-- Helper: under the unique-email store invariant, the email check of the
update handler reports a conflict exactly when a user other than the
requester holds the patched email. -/
theorem emailConflict_iff (users : List User) (userId : String) (p : Patch)
    (e : String) (hem : p.email = some e) (hne : e ≠ "")
    (huniq : ∀ u ∈ users, ∀ v ∈ users, u.email = v.email → u = v) :
    emailConflict users userId p = true ↔
      ∃ v ∈ users, v.email = e ∧ v.id ≠ userId := by
  have hne' : (e == "") = false := by simpa using hne
  constructor
  · intro hc
    simp only [emailConflict, hem, hne', Bool.false_eq_true, if_false] at hc
    cases hf : users.find? (fun (u : User) => u.email == e) with
    | none => rw [hf] at hc; simp at hc
    | some w =>
      rw [hf] at hc
      refine ⟨w, List.mem_of_find?_eq_some hf,
        by simpa using List.find?_some hf, ?_⟩
      simpa using hc
  · intro hex
    obtain ⟨v, hv, hve, hvid⟩ := hex
    have hsome : (users.find? (fun (u : User) => u.email == e)).isSome := by
      rw [List.find?_isSome]
      exact ⟨v, hv, by simpa using hve⟩
    obtain ⟨w, hw⟩ := Option.isSome_iff_exists.mp hsome
    have hwe : w.email = e := by simpa using List.find?_some hw
    have hwv : w = v :=
      huniq w (List.mem_of_find?_eq_some hw) v hv (hwe.trans hve.symm)
    simp only [emailConflict, hem, hne', Bool.false_eq_true, if_false, hw]
    subst hwv
    simpa using hvid

/-- Helper: when the requester resolves and the email check reports a
conflict, the update handler answers 400 and returns the store whole. -/
theorem updateProfile_conflict_eq (hash : String → String)
    (issueTok : User → String) (users : List User) (userId : String)
    (p : Patch) (user : User)
    (hfind : users.find? (fun u => u.id == userId) = some user)
    (hc : emailConflict users userId p = true) :
    updateProfile hash issueTok users userId p =
      (.err 400 "This email is already in use.", users) := by
  simp [updateProfile, hfind, hc]

/-- Helper: when the requester resolves and the email check reports no
conflict, the update handler answers 200 with a token on the updated
document and replaces the requester in the store. -/
theorem updateProfile_ok_eq (hash : String → String)
    (issueTok : User → String) (users : List User) (userId : String)
    (p : Patch) (user : User)
    (hfind : users.find? (fun u => u.id == userId) = some user)
    (hc : emailConflict users userId p = false) :
    updateProfile hash issueTok users userId p =
      (.ok 200 "Profile updated successfully!"
        (issueTok (updatedUser hash user p)),
        users.map (fun (u : User) =>
          if u.id == userId then updatedUser hash user p else u)) := by
  simp [updateProfile, hfind, hc]

/-- Helper: replacing by id the document that `find?` located leaves the
replacement as the document `find?` locates afterwards. -/
theorem find?_replace_eq (users : List User) (userId : String)
    (user user' : User)
    (h : users.find? (fun u => u.id == userId) = some user)
    (hid : user'.id = userId) :
    (users.map (fun (u : User) =>
      if u.id == userId then user' else u)).find?
      (fun u => u.id == userId) = some user' := by
  induction users with
  | nil => simp at h
  | cons a l ih =>
    rw [List.map_cons]
    by_cases ha : (a.id == userId) = true
    · have hmap : (if a.id == userId then user' else a) = user' := by
        simp [ha]
      rw [hmap]
      exact List.find?_cons_of_pos _ (by simpa using hid)
    · have ha' : (a.id == userId) = false := by
        simpa using ha
      have hmap : (if a.id == userId then user' else a) = a := by
        simp [ha']
      rw [hmap, List.find?_cons_of_neg _ (by simp [ha'])]
      apply ih
      rwa [List.find?_cons_of_neg _ (by simp [ha'])] at h

/-- Helper: in a successful update, the store afterwards resolves the
requester id to the updated document. -/
theorem updateProfile_store_find (hash : String → String)
    (issueTok : User → String) (users : List User) (userId : String)
    (p : Patch) (user : User)
    (hfind : users.find? (fun u => u.id == userId) = some user)
    (hok : emailConflict users userId p = false) :
    (updateProfile hash issueTok users userId p).2.find?
      (fun u => u.id == userId) = some (updatedUser hash user p) := by
  have huid : user.id = userId := by simpa using List.find?_some hfind
  rw [updateProfile_ok_eq hash issueTok users userId p user hfind hok]
  exact find?_replace_eq users userId user (updatedUser hash user p) hfind
    (by simpa [updatedUser] using huid)

/-- C5: under the unique-email store invariant, an authenticated update
whose patch carries a non-empty email answers 400
"This email is already in use." exactly when a user other than the
requester holds that email, and then leaves the store unchanged; patching
the email the requester already holds succeeds with status 200; and a
non-empty patched password is stored re-hashed. -/
theorem C5_updateProfile_email_spec (hash : String → String)
    (issueTok : User → String) (users : List User) (userId : String)
    (p : Patch) (user : User) (e : String)
    (hfind : users.find? (fun u => u.id == userId) = some user)
    (hem : p.email = some e) (hne : e ≠ "")
    (huniq : ∀ u ∈ users, ∀ v ∈ users, u.email = v.email → u = v) :
    ((updateProfile hash issueTok users userId p).1 =
        .err 400 "This email is already in use." ↔
      ∃ v ∈ users, v.email = e ∧ v.id ≠ userId) ∧
    ((∃ v ∈ users, v.email = e ∧ v.id ≠ userId) →
      (updateProfile hash issueTok users userId p).2 = users) ∧
    (user.email = e →
      (updateProfile hash issueTok users userId p).1.status = 200) ∧
    (∀ pw, p.password = some pw → pw ≠ "" →
      (¬∃ v ∈ users, v.email = e ∧ v.id ≠ userId) →
      ((updateProfile hash issueTok users userId p).2.find?
        (fun u => u.id == userId)).map User.password = some (hash pw)) := by
  have hiff := emailConflict_iff users userId p e hem hne huniq
  have huid : user.id = userId := by simpa using List.find?_some hfind
  refine ⟨?_, ?_, ?_, ?_⟩
  · constructor
    · intro h1
      cases hc : emailConflict users userId p with
      | true => exact hiff.mp hc
      | false =>
        rw [updateProfile_ok_eq hash issueTok users userId p user hfind hc]
          at h1
        simp at h1
    · intro hex
      rw [updateProfile_conflict_eq hash issueTok users userId p user hfind
        (hiff.mpr hex)]
  · intro hex
    rw [updateProfile_conflict_eq hash issueTok users userId p user hfind
      (hiff.mpr hex)]
  · intro hself
    have hc : emailConflict users userId p = false := by
      cases hc : emailConflict users userId p with
      | false => rfl
      | true =>
        obtain ⟨v, hv, hve, hvid⟩ := hiff.mp hc
        have hvu : v = user :=
          huniq v hv user (List.mem_of_find?_eq_some hfind)
            (hve.trans hself.symm)
        exact absurd (by rw [hvu, huid]) hvid
    rw [updateProfile_ok_eq hash issueTok users userId p user hfind hc]
    rfl
  · intro pw hpw hpwne hnex
    have hc : emailConflict users userId p = false := by
      cases hc : emailConflict users userId p with
      | false => rfl
      | true => exact absurd (hiff.mp hc) hnex
    have hid' : (updatedUser hash user p).id = userId := by
      simpa [updatedUser] using huid
    have hrep := find?_replace_eq users userId user (updatedUser hash user p)
      hfind hid'
    have hpwne' : (pw == "") = false := by simpa using hpwne
    rw [updateProfile_ok_eq hash issueTok users userId p user hfind hc]
    simp only [hrep, Option.map_some]
    simp [updatedUser, hpw, hpwne']

/-- C5 witness: with Alice (u1) and Bob (u2) stored, Alice patching her
email to the one Bob holds answers 400 and keeps the store; Alice patching
her email to her own succeeds with status 200 and her patched password is
stored hashed. -/
theorem C5_updateProfile_email_spec_witness :
    (updateProfile (fun s => "#" ++ s) (fun _ => "t")
      [⟨"u1", "a@x", "#p", "Alice", none, false⟩,
        ⟨"u2", "b@x", "#q", "Bob", none, false⟩] "u1"
      ⟨none, some "b@x", none, none⟩).1 =
      .err 400 "This email is already in use." ∧
    (updateProfile (fun s => "#" ++ s) (fun _ => "t")
      [⟨"u1", "a@x", "#p", "Alice", none, false⟩,
        ⟨"u2", "b@x", "#q", "Bob", none, false⟩] "u1"
      ⟨none, some "b@x", none, none⟩).2 =
      [⟨"u1", "a@x", "#p", "Alice", none, false⟩,
        ⟨"u2", "b@x", "#q", "Bob", none, false⟩] ∧
    (updateProfile (fun s => "#" ++ s) (fun _ => "t")
      [⟨"u1", "a@x", "#p", "Alice", none, false⟩,
        ⟨"u2", "b@x", "#q", "Bob", none, false⟩] "u1"
      ⟨none, some "a@x", some "npw", none⟩).1.status = 200 ∧
    ((updateProfile (fun s => "#" ++ s) (fun _ => "t")
      [⟨"u1", "a@x", "#p", "Alice", none, false⟩,
        ⟨"u2", "b@x", "#q", "Bob", none, false⟩] "u1"
      ⟨none, some "a@x", some "npw", none⟩).2.find?
      (fun u => u.id == "u1")).map User.password = some "#npw" :=
  ⟨(C5_updateProfile_email_spec (fun s => "#" ++ s) (fun _ => "t")
      [⟨"u1", "a@x", "#p", "Alice", none, false⟩,
        ⟨"u2", "b@x", "#q", "Bob", none, false⟩] "u1"
      ⟨none, some "b@x", none, none⟩
      ⟨"u1", "a@x", "#p", "Alice", none, false⟩ "b@x"
      (by decide) rfl (by decide) (by decide)).1.mpr
      ⟨⟨"u2", "b@x", "#q", "Bob", none, false⟩, by decide, rfl, by decide⟩,
    (C5_updateProfile_email_spec (fun s => "#" ++ s) (fun _ => "t")
      [⟨"u1", "a@x", "#p", "Alice", none, false⟩,
        ⟨"u2", "b@x", "#q", "Bob", none, false⟩] "u1"
      ⟨none, some "b@x", none, none⟩
      ⟨"u1", "a@x", "#p", "Alice", none, false⟩ "b@x"
      (by decide) rfl (by decide) (by decide)).2.1
      ⟨⟨"u2", "b@x", "#q", "Bob", none, false⟩, by decide, rfl, by decide⟩,
    (C5_updateProfile_email_spec (fun s => "#" ++ s) (fun _ => "t")
      [⟨"u1", "a@x", "#p", "Alice", none, false⟩,
        ⟨"u2", "b@x", "#q", "Bob", none, false⟩] "u1"
      ⟨none, some "a@x", some "npw", none⟩
      ⟨"u1", "a@x", "#p", "Alice", none, false⟩ "a@x"
      (by decide) rfl (by decide) (by decide)).2.2.1 rfl,
    ((C5_updateProfile_email_spec (fun s => "#" ++ s) (fun _ => "t")
      [⟨"u1", "a@x", "#p", "Alice", none, false⟩,
        ⟨"u2", "b@x", "#q", "Bob", none, false⟩] "u1"
      ⟨none, some "a@x", some "npw", none⟩
      ⟨"u1", "a@x", "#p", "Alice", none, false⟩ "a@x"
      (by decide) rfl (by decide) (by decide)).2.2.2 "npw" rfl (by decide)
      (by decide)).trans (by decide)⟩

/-- C10: in a successful authenticated update, a patch field that is absent
or carries the empty string (falsy in JavaScript) leaves the corresponding
stored field unchanged; a non-empty patch field is applied — the password
through the hash, the birthday wrapped as a present value; the untouched
id and admin fields keep their prior values; and every other stored user
survives in the store. -/
theorem C10_updateProfile_falsy_frame (hash : String → String)
    (issueTok : User → String) (users : List User) (userId : String)
    (p : Patch) (user : User)
    (hfind : users.find? (fun u => u.id == userId) = some user)
    (hok : emailConflict users userId p = false) :
    ((p.name = none ∨ p.name = some "") →
      ((updateProfile hash issueTok users userId p).2.find?
        (fun u => u.id == userId)).map User.name = some user.name) ∧
    (∀ s, p.name = some s → s ≠ "" →
      ((updateProfile hash issueTok users userId p).2.find?
        (fun u => u.id == userId)).map User.name = some s) ∧
    ((p.email = none ∨ p.email = some "") →
      ((updateProfile hash issueTok users userId p).2.find?
        (fun u => u.id == userId)).map User.email = some user.email) ∧
    (∀ s, p.email = some s → s ≠ "" →
      ((updateProfile hash issueTok users userId p).2.find?
        (fun u => u.id == userId)).map User.email = some s) ∧
    ((p.password = none ∨ p.password = some "") →
      ((updateProfile hash issueTok users userId p).2.find?
        (fun u => u.id == userId)).map User.password =
        some user.password) ∧
    (∀ s, p.password = some s → s ≠ "" →
      ((updateProfile hash issueTok users userId p).2.find?
        (fun u => u.id == userId)).map User.password = some (hash s)) ∧
    ((p.birthday = none ∨ p.birthday = some "") →
      ((updateProfile hash issueTok users userId p).2.find?
        (fun u => u.id == userId)).map User.birthday =
        some user.birthday) ∧
    (∀ s, p.birthday = some s → s ≠ "" →
      ((updateProfile hash issueTok users userId p).2.find?
        (fun u => u.id == userId)).map User.birthday = some (some s)) ∧
    (((updateProfile hash issueTok users userId p).2.find?
        (fun u => u.id == userId)).map User.id = some user.id ∧
      ((updateProfile hash issueTok users userId p).2.find?
        (fun u => u.id == userId)).map User.admin = some user.admin) ∧
    (∀ v ∈ users, v.id ≠ userId →
      v ∈ (updateProfile hash issueTok users userId p).2) := by
  have huid : user.id = userId := by simpa using List.find?_some hfind
  have hsf := updateProfile_store_find hash issueTok users userId p user
    hfind hok
  have heq := updateProfile_ok_eq hash issueTok users userId p user hfind hok
  refine ⟨?_, ?_, ?_, ?_, ?_, ?_, ?_, ?_, ⟨?_, ?_⟩, ?_⟩
  · intro h
    rw [hsf]
    rcases h with h | h <;> simp [updatedUser, applyTruthy, h]
  · intro s hs hsne
    have hsne' : (s == "") = false := by simpa using hsne
    rw [hsf]
    simp [updatedUser, applyTruthy, hs, hsne']
  · intro h
    rw [hsf]
    rcases h with h | h <;> simp [updatedUser, applyTruthy, h]
  · intro s hs hsne
    have hsne' : (s == "") = false := by simpa using hsne
    rw [hsf]
    simp [updatedUser, applyTruthy, hs, hsne']
  · intro h
    rw [hsf]
    rcases h with h | h <;> simp [updatedUser, applyTruthy, h]
  · intro s hs hsne
    have hsne' : (s == "") = false := by simpa using hsne
    rw [hsf]
    simp [updatedUser, applyTruthy, hs, hsne']
  · intro h
    rw [hsf]
    rcases h with h | h <;> simp [updatedUser, applyTruthy, h]
  · intro s hs hsne
    have hsne' : (s == "") = false := by simpa using hsne
    rw [hsf]
    simp [updatedUser, applyTruthy, hs, hsne']
  · rw [hsf]
    simp [updatedUser]
  · rw [hsf]
    simp [updatedUser]
  · intro v hv hvid
    have hvne : (v.id == userId) = false := by simpa using hvid
    have hmem : v ∈ users.map (fun (u : User) =>
        if u.id == userId then updatedUser hash user p else u) := by
      have hm := List.mem_map_of_mem (fun (u : User) =>
        if u.id == userId then updatedUser hash user p else u) hv
      simpa [hvne] using hm
    rw [heq]
    exact hmem

/-- C10 witness: Alice patches with an empty name, an empty email, the
password npw and no birthday: her stored name, email and birthday are
untouched, her password is stored hashed, her id and admin flag are kept,
and Bob survives in the store. -/
theorem C10_updateProfile_falsy_frame_witness :
    ((updateProfile (fun s => "#" ++ s) (fun _ => "t")
      [⟨"u1", "a@x", "#p", "Alice", none, false⟩,
        ⟨"u2", "b@x", "#q", "Bob", none, false⟩] "u1"
      ⟨some "", some "", some "npw", none⟩).2.find?
      (fun u => u.id == "u1")).map User.name = some "Alice" ∧
    ((updateProfile (fun s => "#" ++ s) (fun _ => "t")
      [⟨"u1", "a@x", "#p", "Alice", none, false⟩,
        ⟨"u2", "b@x", "#q", "Bob", none, false⟩] "u1"
      ⟨some "", some "", some "npw", none⟩).2.find?
      (fun u => u.id == "u1")).map User.email = some "a@x" ∧
    ((updateProfile (fun s => "#" ++ s) (fun _ => "t")
      [⟨"u1", "a@x", "#p", "Alice", none, false⟩,
        ⟨"u2", "b@x", "#q", "Bob", none, false⟩] "u1"
      ⟨some "", some "", some "npw", none⟩).2.find?
      (fun u => u.id == "u1")).map User.password = some "#npw" ∧
    ((updateProfile (fun s => "#" ++ s) (fun _ => "t")
      [⟨"u1", "a@x", "#p", "Alice", none, false⟩,
        ⟨"u2", "b@x", "#q", "Bob", none, false⟩] "u1"
      ⟨some "", some "", some "npw", none⟩).2.find?
      (fun u => u.id == "u1")).map User.birthday = some none ∧
    ((updateProfile (fun s => "#" ++ s) (fun _ => "t")
      [⟨"u1", "a@x", "#p", "Alice", none, false⟩,
        ⟨"u2", "b@x", "#q", "Bob", none, false⟩] "u1"
      ⟨some "", some "", some "npw", none⟩).2.find?
      (fun u => u.id == "u1")).map User.admin = some false ∧
    ⟨"u2", "b@x", "#q", "Bob", none, false⟩ ∈
      (updateProfile (fun s => "#" ++ s) (fun _ => "t")
        [⟨"u1", "a@x", "#p", "Alice", none, false⟩,
          ⟨"u2", "b@x", "#q", "Bob", none, false⟩] "u1"
        ⟨some "", some "", some "npw", none⟩).2 :=
  ⟨(C10_updateProfile_falsy_frame (fun s => "#" ++ s) (fun _ => "t")
      [⟨"u1", "a@x", "#p", "Alice", none, false⟩,
        ⟨"u2", "b@x", "#q", "Bob", none, false⟩] "u1"
      ⟨some "", some "", some "npw", none⟩
      ⟨"u1", "a@x", "#p", "Alice", none, false⟩
      (by decide) (by decide)).1 (Or.inr rfl),
    (C10_updateProfile_falsy_frame (fun s => "#" ++ s) (fun _ => "t")
      [⟨"u1", "a@x", "#p", "Alice", none, false⟩,
        ⟨"u2", "b@x", "#q", "Bob", none, false⟩] "u1"
      ⟨some "", some "", some "npw", none⟩
      ⟨"u1", "a@x", "#p", "Alice", none, false⟩
      (by decide) (by decide)).2.2.1 (Or.inr rfl),
    ((C10_updateProfile_falsy_frame (fun s => "#" ++ s) (fun _ => "t")
      [⟨"u1", "a@x", "#p", "Alice", none, false⟩,
        ⟨"u2", "b@x", "#q", "Bob", none, false⟩] "u1"
      ⟨some "", some "", some "npw", none⟩
      ⟨"u1", "a@x", "#p", "Alice", none, false⟩
      (by decide) (by decide)).2.2.2.2.2.1 "npw" rfl (by decide)).trans
      (by decide),
    (C10_updateProfile_falsy_frame (fun s => "#" ++ s) (fun _ => "t")
      [⟨"u1", "a@x", "#p", "Alice", none, false⟩,
        ⟨"u2", "b@x", "#q", "Bob", none, false⟩] "u1"
      ⟨some "", some "", some "npw", none⟩
      ⟨"u1", "a@x", "#p", "Alice", none, false⟩
      (by decide) (by decide)).2.2.2.2.2.2.1 (Or.inl rfl),
    (C10_updateProfile_falsy_frame (fun s => "#" ++ s) (fun _ => "t")
      [⟨"u1", "a@x", "#p", "Alice", none, false⟩,
        ⟨"u2", "b@x", "#q", "Bob", none, false⟩] "u1"
      ⟨some "", some "", some "npw", none⟩
      ⟨"u1", "a@x", "#p", "Alice", none, false⟩
      (by decide) (by decide)).2.2.2.2.2.2.2.2.1.2,
    (C10_updateProfile_falsy_frame (fun s => "#" ++ s) (fun _ => "t")
      [⟨"u1", "a@x", "#p", "Alice", none, false⟩,
        ⟨"u2", "b@x", "#q", "Bob", none, false⟩] "u1"
      ⟨some "", some "", some "npw", none⟩
      ⟨"u1", "a@x", "#p", "Alice", none, false⟩
      (by decide) (by decide)).2.2.2.2.2.2.2.2.2
      ⟨"u2", "b@x", "#q", "Bob", none, false⟩ (by decide) (by decide)⟩

end ThreeBeans
